import Mathlib

/-!
Verification of the llvm-build-script repository (src/src/llvmbuild/cli.py and
src/build.py): a shallow embedding of the CLI build orchestrator, together with
theorems settling the specification claims about option validation, dry-run
behaviour, command synthesis, and default-path derivation.

Python strings are modelled as lists of characters (PyStr); Python pathlib
paths are modelled by their string form, with the / operator appending a
separator and one segment (all segments the claims exercise are slash-free).
Fatal errors (printFatalError, which writes a message and calls exit(1)) are
modelled by an Option Fatal field carrying the data interpolated into the
message; external process spawning and command printing are modelled by
explicit event lists in the stage output.
-/

set_option maxRecDepth 10000

namespace LlvmBuild

/-- Python strings, modelled as lists of characters. -/
abbrev PyStr := List Char

/-- The character list of a Lean string literal (used to write PyStr literals). -/
def pys (s : String) : PyStr := s.toList

/-- A command line: the list of arguments handed to subprocess.run. -/
abbrev Cmd := List PyStr

/-- Decides whether the first list is a prefix of the second
(the primitive underlying Python's substring test). -/
def isPre : PyStr → PyStr → Bool
  | [], _ => true
  | _ :: _, [] => false
  | a :: as, b :: bs => a == b && isPre as bs

/-- Python's substring containment test: hasSub n h decides whether n occurs
contiguously inside h, i.e. the Python expression n in h on strings. -/
def hasSub (n : PyStr) : PyStr → Bool
  | [] => n.isEmpty
  | h :: t => isPre n (h :: t) || hasSub n t

/-- Python's ";".join applied to a list of strings (cli.py joins the enabled
project/runtime/target sets with a semicolon before substring-testing them). -/
def semiJoin : List PyStr → PyStr
  | [] => []
  | [e] => e
  | e :: f :: rest => e ++ ';' :: semiJoin (f :: rest)

lemma isPre_nil (n : PyStr) : isPre n [] = n.isEmpty := by
  cases n <;> rfl

lemma isPre_append_self (p v : PyStr) : isPre p (p ++ v) = true := by
  induction p with
  | nil => rfl
  | cons a as ih => simp [isPre, ih]

/-- A list with a given fixed left part can never equal a string that fixed
part is not a prefix of (used to tell variable command entries apart from the
literal flags the claims mention). -/
lemma append_ne_of_not_isPre {p q : PyStr} (v : PyStr) (h : isPre p q = false) :
    p ++ v ≠ q := by
  intro he
  rw [← he, isPre_append_self] at h
  exact absurd h (by decide)

lemma isPre_append_cons {n : PyStr} {c : Char} (hc : c ∉ n) (a b : PyStr) :
    isPre n (a ++ c :: b) = isPre n a := by
  induction n generalizing a with
  | nil => simp [isPre]
  | cons d n' ih =>
    have hcd : (d == c) = false := by
      simp only [beq_eq_false_iff_ne]
      intro h
      exact hc (h ▸ List.mem_cons_self d n')
    have hcn' : c ∉ n' := fun h => hc (List.mem_cons_of_mem d h)
    cases a with
    | nil => simp [isPre, hcd, isPre_nil]
    | cons e a' =>
      show (d == e && isPre n' (a' ++ c :: b)) = (d == e && isPre n' a')
      rw [ih hcn' a']

/-- Substring search distributes over a separator character that does not
occur in the needle: an occurrence cannot straddle the separator. -/
lemma hasSub_append_cons {n : PyStr} {c : Char} (hc : c ∉ n) (a b : PyStr) :
    hasSub n (a ++ c :: b) = (hasSub n a || hasSub n b) := by
  induction a with
  | nil =>
    have h1 : isPre n (([] : PyStr) ++ c :: b) = isPre n [] := isPre_append_cons hc [] b
    simp only [List.nil_append] at h1
    simp only [List.nil_append, hasSub, h1, isPre_nil]
  | cons e a' ih =>
    have h1 : isPre n ((e :: a') ++ c :: b) = isPre n (e :: a') :=
      isPre_append_cons hc (e :: a') b
    simp only [List.cons_append] at h1 ⊢
    simp only [hasSub, h1, ih, Bool.or_assoc]

/-- Python's needle in ";".join(elems) test, for a needle that is non-empty
and semicolon-free, holds exactly when the needle occurs inside one of the
joined elements. -/
lemma hasSub_semiJoin {n : PyStr} (hne : n ≠ []) (hc : ';' ∉ n) (es : List PyStr) :
    hasSub n (semiJoin es) = es.any (fun e => hasSub n e) := by
  induction es with
  | nil =>
    simp only [semiJoin, hasSub, List.any_nil]
    cases n with
    | nil => exact absurd rfl hne
    | cons a as => rfl
  | cons e rest ih =>
    cases rest with
    | nil => simp [semiJoin, List.any_cons]
    | cons f rest' =>
      show hasSub n (e ++ ';' :: semiJoin (f :: rest')) = _
      rw [hasSub_append_cons hc, ih]
      simp [List.any_cons]

/-! ## Python string and path helpers -/

/-- ASCII lowering of one character (the catalog strings the script lowers are
all ASCII, so Python's str.lower agrees with this on every relevant input). -/
def asciiLower (c : Char) : Char :=
  if 'A' ≤ c ∧ c ≤ 'Z' then Char.ofNat (c.toNat + 32) else c

/-- ASCII raising of one character. -/
def asciiUpper (c : Char) : Char :=
  if 'a' ≤ c ∧ c ≤ 'z' then Char.ofNat (c.toNat - 32) else c

/-- Python str.lower on the ASCII strings the script handles. -/
def pyLower (s : PyStr) : PyStr := s.map asciiLower

/-- Python str.capitalize: first character raised, remainder lowered
(cli.py line 169, build_type.capitalize()). -/
def pyCapitalize : PyStr → PyStr
  | [] => []
  | c :: cs => asciiUpper c :: pyLower cs

/-- Python str.replace with a single-character pattern and replacement, as in
branch_name.replace("/", "-") (cli.py line 159, build.py line 192). -/
def pyReplace (s : PyStr) (old new : Char) : PyStr :=
  s.map (fun c => if c = old then new else c)

/-- Splits a string on a character, keeping empty fields. -/
def splitOnChar (c : Char) : PyStr → List PyStr
  | [] => [[]]
  | d :: rest =>
    let r := splitOnChar c rest
    if d = c then [] :: r
    else (d :: r.headD []) :: r.tail

/-- Python pathlib's Path.name: the last non-empty slash-separated component
(cli.py line 156, source_path.name). -/
def pyPathName (p : PyStr) : PyStr :=
  ((splitOnChar '/' p).filter (fun seg => !seg.isEmpty)).getLastD []

/-- Python pathlib's / operator for a slash-free right segment: paths are
modelled by their string form and the operator appends a separator and the
segment. Every segment the script appends ("llvm", "builds", "installs", a
dash-joined branch name, a lowercased build type) is slash-free. -/
def pathDiv (p : PyStr) (seg : PyStr) : PyStr := p ++ '/' :: seg

/-- Decimal rendering of a natural number, as Python str() of an int
(used for the -j job count and the 0/1 cmake toggles). -/
def natStr (n : Nat) : PyStr := (Nat.repr n).toList

/-! ## Option catalogs (cli.py lines 16-72) -/

/-- cli.py llvm_projects: the fixed catalog behind --enable-projects. -/
def llvm_projects : List PyStr :=
  [pys "bolt", pys "clang", pys "clang-tools-extra", pys "compiler-rt",
   pys "cross-project-tests", pys "flang", pys "libc", pys "libclc",
   pys "lld", pys "lldb", pys "mlir", pys "openmp", pys "polly", pys "pstl"]

/-- cli.py llvm_runtimes: the fixed catalog behind --enable-runtimes. -/
def llvm_runtimes : List PyStr :=
  [pys "libc", pys "libunwind", pys "libcxxabi", pys "pstl", pys "libcxx",
   pys "compiler-rt", pys "openmp", pys "llvm-libgcc"]

/-- cli.py llvm_targets: the fixed catalog behind --enable-targets. -/
def llvm_targets : List PyStr :=
  [pys "AArch64", pys "AMDGPU", pys "ARM", pys "BPF", pys "Hexagon",
   pys "Lanai", pys "Mips", pys "MSP430", pys "NVPTX", pys "PowerPC",
   pys "RISCV", pys "Sparc", pys "SystemZ", pys "WebAssembly", pys "X86",
   pys "XCore"]

/-! ## Effects model -/

/-- The filesystem as the script observes it: existence of a path and the
number of entries os.listdir would report for it. -/
structure FS where
  pathExists : PyStr → Bool
  listLen : PyStr → Nat

/-- Path.mkdir(parents=True, exist_ok=True): a no-op on an existing path,
otherwise the path comes into existence with an empty listing. Parent
creation is elided because no code path observed by the claims reads a
parent directory afterwards. -/
def FS.mkdir (fs : FS) (p : PyStr) : FS :=
  if fs.pathExists p then fs
  else
    { pathExists := fun q => q == p || fs.pathExists q,
      listLen := fun q => if q == p then 0 else fs.listLen q }

/-- cli.py isDirectoryEmpty: not Path(path).exists() or len(os.listdir(path)) == 0. -/
def isDirectoryEmpty (fs : FS) (p : PyStr) : Bool :=
  !fs.pathExists p || fs.listLen p == 0

/-- The ambient environment: presence of executables on the PATH
(shutil.which), the checked-out branch of a source tree (git.Repo), the CPU
count (os.cpu_count), and the exit status of spawned commands
(subprocess.run). -/
structure Env where
  which : PyStr → Option PyStr
  branchName : PyStr → PyStr
  cpuCount : Nat
  run : Cmd → Int

/-- Data interpolated into a printFatalError message; each constructor is one
fatal exit(1) site of cli.py. -/
inductive Fatal where
  | sourceMissing (p : PyStr)
  | llvmRootMissing (p : PyStr)
  | notDisjoint (projects runtimes overlap : List PyStr)
  | buildPathEmpty (p : PyStr)
  | installMissing (p : PyStr)
  | cmdFailed (cmd : Cmd) (rc : Int)
deriving DecidableEq

/-- Data interpolated into a printWarning message; each constructor is one
non-fatal warning site of cli.py. -/
inductive Warn where
  | buildPathNotEmpty (p : PyStr)
  | ccacheMissing
  | clangMissing
  | installPathNotEmpty (p : PyStr)
deriving DecidableEq

/-- ctx.obj as filled in by the cli group callback (cli.py lines 164-171). -/
structure CtxObj where
  source : PyStr
  build : PyStr
  install : PyStr
  build_type : PyStr
  print_only : Bool
  generator : PyStr
deriving DecidableEq

/-- Observable outcome of one subcommand: the final filesystem, the commands
printed and the processes spawned (in order), the warnings emitted, and the
fatal error that ended the process, if any. -/
structure StageOut where
  fs : FS
  fatal : Option Fatal := none
  printed : List Cmd := []
  spawned : List Cmd := []
  warnings : List Warn := []

/-- cli.py runShellCommand: always prints the command; outside print-only mode
spawns it and turns a non-zero exit status into a fatal error. -/
def runShellCommand (cmd : Cmd) (print_only : Bool) (env : Env) (st : StageOut) : StageOut :=
  let st1 := { st with printed := st.printed ++ [cmd] }
  if print_only then st1
  else
    let st2 := { st1 with spawned := st1.spawned ++ [cmd] }
    if env.run cmd ≠ 0 then { st2 with fatal := some (.cmdFailed cmd (env.run cmd)) }
    else st2

/-! ## The cli group callback and the four subcommands (cli.py) -/

/-- The cli group callback (cli.py lines 141-180): verifies that the source
path exists, derives the default build and install paths, appends the
lowercased build type to the build path, and fills ctx.obj. The branch lookup
git.Repo(source_path).active_branch.name is the black-box env.branchName. -/
def cli (cwd : PyStr) (source_path : PyStr) (build_path install_path : Option PyStr)
    (build_type : PyStr) (print_only : Bool) (generator : PyStr)
    (env : Env) (fs : FS) : Except Fatal CtxObj :=
  if fs.pathExists source_path then
    let default_build_path := pathDiv (pathDiv cwd (pys "builds")) (pyLower (pyPathName source_path))
    let branch_name := pyReplace (env.branchName source_path) '/' '-'
    let default_install_path :=
      pathDiv (pathDiv (pathDiv cwd (pys "installs")) branch_name) (pyLower build_type)
    .ok { source := source_path,
          build := pathDiv (build_path.getD default_build_path) (pyLower build_type),
          install := install_path.getD default_install_path,
          build_type := pyCapitalize build_type,
          print_only := print_only,
          generator := generator }
  else .error (.sourceMissing source_path)

/-- cli.py line 137: the click default for --generator is the literal "Ninja",
with no probe for the executable. -/
def cli_generator_default : PyStr := pys "Ninja"

/-- build.py line 111: the argparse default for --generator probes the PATH,
"Ninja" if shutil.which("ninja") is not None else "Unix Makefiles". -/
def buildpy_generator_default (env : Env) : PyStr :=
  if env.which (pys "ninja") ≠ none then pys "Ninja" else pys "Unix Makefiles"

/-- cli.py line 357: the click default for --jobs is int(os.cpu_count() * 0.90).
For every CPU count below 2^50 the double product n * 0.90 truncates to
floor(9n/10), so the Nat expression n * 9 / 10 is exact on all real inputs. -/
def jobs_default (env : Env) : Nat := env.cpuCount * 9 / 10

/-- cli.py lines 296-298: openmp_standalone = int("openmp" in enable_projects
and "clang" not in enable_projects), evaluated after line 293 rebound
enable_projects to the semicolon-joined string, so both tests are substring
tests on that joined string. -/
def openmpStandaloneFlag (projStr : PyStr) : Nat :=
  if hasSub (pys "openmp") projStr && !hasSub (pys "clang") projStr then 1 else 0

/-- cmake_config_command (cli.py lines 314-343): the synthesized configure
argument vector, including the four conditional tails (explicit compiler and
linker, ccache, Debug-only toggles, NVPTX-only toggles). The NVPTX condition
is the substring test "NVPTX" in enable_targets on the joined target string
(line 341, after line 295 rebound enable_targets to that string). -/
def cmake_config_command (ctx : CtxObj) (projStr runtStr targStr : PyStr)
    (use_env_compiler : Bool) (clang_path clangxx_path linker : PyStr)
    (disable_ccache : Bool) (debug_messages profiler openmp_standalone : Nat) : Cmd :=
  [pys "cmake",
   pys "-S" ++ pathDiv ctx.source (pys "llvm"),
   pys "-B" ++ ctx.build,
   pys "-G" ++ ctx.generator,
   pys "-DCMAKE_BUILD_TYPE=" ++ ctx.build_type,
   pys "-DCMAKE_INSTALL_PREFIX=" ++ ctx.install,
   pys "-DLLVM_ENABLE_PROJECTS=" ++ projStr,
   pys "-DLLVM_ENABLE_RUNTIMES=" ++ runtStr,
   pys "-DLLVM_TARGETS_TO_BUILD=" ++ targStr,
   pys "-DCLANG_VENDOR=OmpCluster",
   pys "-DLIBOMPTARGET_ENABLE_DEBUG=" ++ natStr debug_messages,
   pys "-DLLVM_ENABLE_ASSERTIONS=On",
   pys "-DCMAKE_EXPORT_COMPILE_COMMANDS=On",
   pys "-DLLVM_INCLUDE_BENCHMARKS=Off",
   pys "-DLIBOMPTARGET_ENABLE_PROFILER=" ++ natStr profiler,
   pys "-DOPENMP_STANDALONE_BUILD=" ++ natStr openmp_standalone]
  ++ (if !use_env_compiler then
        [pys "-DCMAKE_C_COMPILER=" ++ clang_path,
         pys "-DCMAKE_CXX_COMPILER=" ++ clangxx_path,
         pys "-DLLVM_USE_LINKER=" ++ linker]
      else [])
  ++ (if !disable_ccache then [pys "-DLLVM_CCACHE_BUILD=ON"] else [])
  ++ (if ctx.build_type = pys "Debug" then
        [pys "-DBUILD_SHARED_LIBS=1", pys "-DLLVM_USE_SPLIT_DWARF=1"]
      else [])
  ++ (if hasSub (pys "NVPTX") targStr then
        [pys "-DCLANG_OPENMP_NVPTX_DEFAULT_ARCH=sm_86",
         pys "-DLIBOMPTARGET_NVPTX_COMPUTE_CAPABILITIES=86"]
      else [])

/-- The config subcommand (cli.py lines 244-349). Faithful statement order:
llvm-root fatal check, build-path warning, eager mkdir outside print-only
mode, ccache and compiler probes (warnings only), set-disjointness fatal
check on the deduplicated selections, joining of the three sets, derivation
of the 0/1 toggles, synthesis and execution of the configure command. The
deduplicated lists model Python's set() (membership is order-insensitive and
no claim depends on the unspecified set iteration order). -/
def config (ctx : CtxObj) (disable_ccache use_env_compiler : Bool)
    (enable_projects enable_runtimes enable_targets : List PyStr)
    (disable_debug_messages disable_profiler : Bool) (linker : PyStr)
    (env : Env) (fs : FS) : StageOut :=
  let llvm_root_path := pathDiv ctx.source (pys "llvm")
  if fs.pathExists llvm_root_path then
    let warns1 :=
      if fs.pathExists ctx.build && !isDirectoryEmpty fs ctx.build then
        [Warn.buildPathNotEmpty ctx.build]
      else []
    let fs1 := if !ctx.print_only then fs.mkdir ctx.build else fs
    let ccacheGone := !disable_ccache && (env.which (pys "ccache")).isNone
    let disable_ccache1 := if ccacheGone then true else disable_ccache
    let warns2 := warns1 ++ (if ccacheGone then [Warn.ccacheMissing] else [])
    let clang_path := env.which (pys "clang")
    let clangxx_path := env.which (pys "clang++")
    let clangGone := (!use_env_compiler && clang_path.isNone) || clangxx_path.isNone
    let use_env_compiler1 := if clangGone then true else use_env_compiler
    let warns3 := warns2 ++ (if clangGone then [Warn.clangMissing] else [])
    let projSet := enable_projects.dedup
    let runtSet := enable_runtimes.dedup
    let overlap := projSet.filter (fun x => decide (x ∈ runtSet))
    if overlap.isEmpty then
      let projStr := semiJoin projSet
      let runtStr := semiJoin runtSet
      let targStr := semiJoin enable_targets.dedup
      let openmp_standalone := openmpStandaloneFlag projStr
      let debug_messages : Nat := if disable_debug_messages then 0 else 1
      let profiler : Nat := if disable_profiler then 0 else 1
      let cmd := cmake_config_command ctx projStr runtStr targStr
        use_env_compiler1 (clang_path.getD []) (clangxx_path.getD []) linker
        disable_ccache1 debug_messages profiler openmp_standalone
      runShellCommand cmd ctx.print_only env { fs := fs1, warnings := warns3 }
    else
      { fs := fs1, fatal := some (.notDisjoint projSet runtSet overlap),
        warnings := warns3 }
  else { fs := fs, fatal := some (.llvmRootMissing llvm_root_path) }

/-- The build subcommand (cli.py lines 352-383): fatal when the build path is
missing or empty, otherwise runs cmake --build with the -j job count. -/
def build (ctx : CtxObj) (jobs : Nat) (env : Env) (fs : FS) : StageOut :=
  if !fs.pathExists ctx.build || isDirectoryEmpty fs ctx.build then
    { fs := fs, fatal := some (.buildPathEmpty ctx.build) }
  else
    let cmd := [pys "cmake", pys "--build", ctx.build, pys "-j", natStr jobs]
    runShellCommand cmd ctx.print_only env { fs := fs }

/-- The install subcommand (cli.py lines 386-419): fatal when the build path
is missing or empty; eagerly creates the install path outside print-only
mode; fatal when the install path still does not exist; a non-fatal warning
(only) when the install path is non-empty; then runs cmake --install. -/
def install (ctx : CtxObj) (env : Env) (fs : FS) : StageOut :=
  if !fs.pathExists ctx.build || isDirectoryEmpty fs ctx.build then
    { fs := fs, fatal := some (.buildPathEmpty ctx.build) }
  else
    let fs1 := if !ctx.print_only then fs.mkdir ctx.install else fs
    if fs1.pathExists ctx.install then
      let warns :=
        if !isDirectoryEmpty fs1 ctx.install then [Warn.installPathNotEmpty ctx.install]
        else []
      let cmd := [pys "cmake", pys "--install", ctx.build, pys "--prefix", ctx.install]
      runShellCommand cmd ctx.print_only env { fs := fs1, warnings := warns }
    else { fs := fs1, fatal := some (.installMissing ctx.install) }

/-- The test subcommand (cli.py lines 422-453): fatal when the build path is
missing or empty, otherwise drives the generator-appropriate test tool. -/
def test (ctx : CtxObj) (t : PyStr) (env : Env) (fs : FS) : StageOut :=
  if !fs.pathExists ctx.build || isDirectoryEmpty fs ctx.build then
    { fs := fs, fatal := some (.buildPathEmpty ctx.build) }
  else
    let cmd := [if ctx.generator = pys "Ninja" then pys "ninja" else pys "make",
                pys "-C", ctx.build, t]
    runShellCommand cmd ctx.print_only env { fs := fs }

/-! ## Concrete fixtures for witnesses and counterexamples -/

/-- Environment with no tools on the PATH, branch main, 4 CPUs, every spawned
command succeeding. -/
def env0 : Env :=
  { which := fun _ => none, branchName := fun _ => pys "main",
    cpuCount := 4, run := fun _ => 0 }

/-- Environment whose source tree has branch feature/x checked out. -/
def envFeat : Env :=
  { which := fun _ => none, branchName := fun _ => pys "feature/x",
    cpuCount := 4, run := fun _ => 0 }

/-- Environment of a single-CPU machine. -/
def envCpu1 : Env :=
  { which := fun _ => none, branchName := fun _ => pys "main",
    cpuCount := 1, run := fun _ => 0 }

/-- Environment of an 11-CPU machine. -/
def envCpu11 : Env :=
  { which := fun _ => none, branchName := fun _ => pys "main",
    cpuCount := 11, run := fun _ => 0 }

/-- A filesystem on which no path exists. -/
def fsEmpty : FS := { pathExists := fun _ => false, listLen := fun _ => 0 }

/-- Filesystem with the source tree, its llvm root, and a non-empty build
directory /b/release. -/
def fsA : FS :=
  { pathExists := fun p => p == pys "/s" || p == pys "/s/llvm" || p == pys "/b/release",
    listLen := fun p => if p == pys "/b/release" then 1 else 0 }

/-- Filesystem like fsA that additionally has a non-empty install path /i. -/
def fsInst : FS :=
  { pathExists := fun p =>
      p == pys "/s" || p == pys "/s/llvm" || p == pys "/b/release" || p == pys "/i",
    listLen := fun p =>
      if p == pys "/b/release" then 1 else if p == pys "/i" then 2 else 0 }

/-- Filesystem with the source tree only, no llvm root, a non-empty build
directory, and an existing empty install path (exercises the stages whose
prerequisite is only the build path). -/
def fsNoLlvm : FS :=
  { pathExists := fun p =>
      p == pys "/s" || p == pys "/b/release" || p == pys "/w/installs/main/release",
    listLen := fun p => if p == pys "/b/release" then 1 else 0 }

/-- A resolved ctx.obj running for real (print_only false). -/
def ctxA : CtxObj :=
  { source := pys "/s", build := pys "/b/release", install := pys "/i",
    build_type := pys "Release", print_only := false, generator := pys "Ninja" }

/-- The same ctx.obj in print-only (dry-run) mode. -/
def ctxB : CtxObj :=
  { source := pys "/s", build := pys "/b/release", install := pys "/i",
    build_type := pys "Release", print_only := true, generator := pys "Ninja" }

/-! ## C9: test stage with a missing or empty build directory -/

/-- C9: whenever the resolved build directory does not exist or has no
entries, the test subcommand ends with the fatal Build-path-empty error
(exit code 1) and neither prints nor spawns any external command. -/
theorem test_empty_build_fatal (ctx : CtxObj) (t : PyStr) (env : Env) (fs : FS)
    (h : isDirectoryEmpty fs ctx.build = true) :
    (test ctx t env fs).fatal = some (.buildPathEmpty ctx.build) ∧
    (test ctx t env fs).spawned = [] ∧ (test ctx t env fs).printed = [] := by
  unfold test
  rw [h]
  simp

/-- Witness for C9 at a concrete input: a filesystem with no build directory. -/
theorem test_empty_build_fatal_witness :
    isDirectoryEmpty fsEmpty ctxA.build = true ∧
    (test ctxA (pys "check-all") env0 fsEmpty).fatal = some (.buildPathEmpty ctxA.build) ∧
    (test ctxA (pys "check-all") env0 fsEmpty).spawned = [] :=
  ⟨by decide,
   (test_empty_build_fatal ctxA (pys "check-all") env0 fsEmpty (by decide)).1,
   (test_empty_build_fatal ctxA (pys "check-all") env0 fsEmpty (by decide)).2.1⟩

/-! ## C5: default install path derivation -/

lemma pathDiv_eq_append (p s : PyStr) : pathDiv p s = p ++ pys "/" ++ s := by
  show p ++ '/' :: s = p ++ pys "/" ++ s
  rw [List.append_cons]
  rfl

/-- C5: with no install-path override, the cli callback resolves the install
path to cwd/installs/branch-name/build-type, with every slash in the branch
name replaced by a dash and the build type lowercased. -/
theorem default_install_path_spec (cwd source_path : PyStr) (build_path : Option PyStr)
    (build_type : PyStr) (print_only : Bool) (generator : PyStr) (env : Env) (fs : FS)
    (hsrc : fs.pathExists source_path = true) :
    ∃ ctx, cli cwd source_path build_path none build_type print_only generator env fs
        = .ok ctx ∧
      ctx.install = cwd ++ pys "/installs/" ++ pyReplace (env.branchName source_path) '/' '-'
        ++ pys "/" ++ pyLower build_type := by
  unfold cli
  rw [hsrc]
  refine ⟨_, rfl, ?_⟩
  show pathDiv (pathDiv (pathDiv cwd (pys "installs"))
      (pyReplace (env.branchName source_path) '/' '-')) (pyLower build_type) = _
  rw [pathDiv_eq_append, pathDiv_eq_append, pathDiv_eq_append]
  simp only [List.append_assoc]
  congr 1

/-- Witness for C5: branch feature/x and build type Release yield
cwd/installs/feature-x/release. -/
theorem default_install_path_spec_witness :
    fsA.pathExists (pys "/s") = true ∧
    ∃ ctx, cli (pys "/w") (pys "/s") none none (pys "Release") false (pys "Ninja") envFeat fsA
        = .ok ctx ∧ ctx.install = pys "/w/installs/feature-x/release" := by
  refine ⟨by decide, ?_⟩
  obtain ⟨ctx, hok, hinst⟩ :=
    default_install_path_spec (pys "/w") (pys "/s") none (pys "Release") false (pys "Ninja")
      envFeat fsA (by decide)
  exact ⟨ctx, hok, by rw [hinst]; decide⟩

/-! ## C3: the standalone-OpenMP toggle is a substring test, not set membership -/

/-- C3 (code bug): for the selection {openmp, clang-tools-extra} the claimed
set-membership rule demands -DOPENMP_STANDALONE_BUILD=1 (openmp enabled,
clang not enabled), but the code substring-tests the joined string, where
"clang" occurs inside "clang-tools-extra", so the synthesized configure
command carries -DOPENMP_STANDALONE_BUILD=0. -/
theorem openmp_standalone_substring_bug :
    pys "openmp" ∈ [pys "openmp", pys "clang-tools-extra"] ∧
    pys "clang" ∉ [pys "openmp", pys "clang-tools-extra"] ∧
    openmpStandaloneFlag (semiJoin ([pys "openmp", pys "clang-tools-extra"].dedup)) = 0 ∧
    pys "-DOPENMP_STANDALONE_BUILD=0" ∈
      (config ctxB true true [pys "openmp", pys "clang-tools-extra"] [pys "libcxx"]
        [pys "X86"] false false (pys "lld") env0 fsA).printed.getD 0 [] := by
  decide

/-! ## C6: default job count has no minimum clamp -/

/-- Counterexample for C6: on a single-CPU machine the default job count is
int(1 * 0.90) = 0, not the claimed max(1, floor(0.90 * 1)) = 1. -/
theorem jobs_default_counterexample :
    envCpu1.cpuCount = 1 ∧ jobs_default envCpu1 = 0 ∧
    jobs_default envCpu1 ≠ max 1 (9 * envCpu1.cpuCount / 10) := by
  decide

/-- C6 as amended: the default job count is floor(0.90 * cpu count) with no
minimum: it agrees with the claimed max(1, floor(9n/10)) for every n >= 2 but
is 0 on a single-CPU machine. -/
theorem jobs_default_amended (env : Env) :
    (2 ≤ env.cpuCount → jobs_default env = max 1 (9 * env.cpuCount / 10)) ∧
    (env.cpuCount = 1 → jobs_default env = 0) := by
  constructor
  · intro h
    have h1 : 1 ≤ 9 * env.cpuCount / 10 := by
      have h2 : 10 ≤ 9 * env.cpuCount := by omega
      exact (Nat.one_le_div_iff (by norm_num)).mpr h2
    rw [Nat.max_eq_right h1, jobs_default, Nat.mul_comm]
  · intro h
    simp [jobs_default, h]

/-- Witness for C6 as amended, on an 11-CPU machine: the default is 9. -/
theorem jobs_default_amended_witness :
    2 ≤ envCpu11.cpuCount ∧ jobs_default envCpu11 = max 1 (9 * envCpu11.cpuCount / 10) :=
  ⟨by decide, (jobs_default_amended envCpu11).1 (by decide)⟩

/-! ## C8: generator default in the chained CLI ignores the PATH -/

/-- Counterexample for C8: on a PATH without ninja the claim demands the
fallback generator, but the chained CLI's click default is the literal
Ninja with no probe. -/
theorem generator_default_counterexample :
    env0.which (pys "ninja") = none ∧
    ¬(cli_generator_default = pys "Ninja" ↔ env0.which (pys "ninja") ≠ none) := by
  decide

/-- C8 as amended: the older build.py entry point defaults the generator to
Ninja exactly when the ninja executable is on the PATH and to Unix Makefiles
otherwise, while the chained cli.py interface defaults to Ninja
unconditionally. -/
theorem generator_default_amended :
    cli_generator_default = pys "Ninja" ∧
    (∀ env : Env, env.which (pys "ninja") ≠ none → buildpy_generator_default env = pys "Ninja") ∧
    (∀ env : Env, env.which (pys "ninja") = none →
      buildpy_generator_default env = pys "Unix Makefiles") := by
  refine ⟨rfl, ?_, ?_⟩
  · intro env h
    simp [buildpy_generator_default, h]
  · intro env h
    simp [buildpy_generator_default, h]

/-- Witness for C8 as amended: with no ninja on the PATH build.py falls back
to Unix Makefiles. -/
theorem generator_default_amended_witness :
    env0.which (pys "ninja") = none ∧ buildpy_generator_default env0 = pys "Unix Makefiles" :=
  ⟨rfl, generator_default_amended.2.2 env0 rfl⟩

/-! ## Helper lemmas on the effects model -/

lemma isEmpty_false_of_mem {α : Type} {l : List α} {a : α} (h : a ∈ l) :
    l.isEmpty = false := by
  cases l
  · cases h
  · rfl

lemma exists_of_not_dirEmpty {fs : FS} {p : PyStr} (h : isDirectoryEmpty fs p = false) :
    fs.pathExists p = true := by
  simp only [isDirectoryEmpty, Bool.or_eq_false_iff, Bool.not_eq_false'] at h
  exact h.1

/-- The guard shared by the build, install and test subcommands is false
exactly when the build directory exists and is non-empty. -/
lemma stage_guard_false {fs : FS} {p : PyStr} (h : isDirectoryEmpty fs p = false) :
    (!fs.pathExists p || isDirectoryEmpty fs p) = false := by
  rw [h, exists_of_not_dirEmpty h]
  rfl

/-- In print-only mode runShellCommand only records the printed command. -/
lemma runShellCommand_print_only (cmd : Cmd) (env : Env) (st : StageOut) :
    runShellCommand cmd true env st = { st with printed := st.printed ++ [cmd] } := rfl

/-- Outside print-only mode a command whose exit status is zero is printed
and spawned and produces no fatal error. -/
lemma runShellCommand_run_ok (cmd : Cmd) (env : Env) (st : StageOut)
    (h : env.run cmd = 0) :
    runShellCommand cmd false env st =
      { st with printed := st.printed ++ [cmd], spawned := st.spawned ++ [cmd] } := by
  unfold runShellCommand
  simp [h]

/-- mkdir on an existing path leaves the filesystem unchanged. -/
lemma FS.mkdir_exists {fs : FS} {p : PyStr} (h : fs.pathExists p = true) :
    fs.mkdir p = fs := by
  unfold FS.mkdir
  rw [h]
  rfl

/-! ## C1: disjointness validation in the config subcommand -/

/-- C1: once the configure stage reaches option validation (the llvm root
exists), a projects/runtimes selection with a common element ends in the
fatal not-disjoint error whose message carries exactly the intersecting
elements, with no external process spawned and no command even printed;
a disjoint selection passes validation and configuration proceeds to emit
the synthesized configure command. -/
theorem config_disjoint_validation (ctx : CtxObj) (dc uec ddm dp : Bool)
    (ps rs ts : List PyStr) (lk : PyStr) (env : Env) (fs : FS)
    (hroot : fs.pathExists (pathDiv ctx.source (pys "llvm")) = true)
    (hrun : ∀ c, env.run c = 0) :
    ((∃ x, x ∈ ps ∧ x ∈ rs) →
      (config ctx dc uec ps rs ts ddm dp lk env fs).spawned = [] ∧
      (config ctx dc uec ps rs ts ddm dp lk env fs).printed = [] ∧
      ∃ ov, (config ctx dc uec ps rs ts ddm dp lk env fs).fatal
          = some (.notDisjoint ps.dedup rs.dedup ov) ∧
        ov ≠ [] ∧ ∀ x, x ∈ ov ↔ x ∈ ps ∧ x ∈ rs) ∧
    ((¬ ∃ x, x ∈ ps ∧ x ∈ rs) →
      (config ctx dc uec ps rs ts ddm dp lk env fs).fatal = none ∧
      (config ctx dc uec ps rs ts ddm dp lk env fs).printed ≠ []) := by
  have hint : ∀ x : PyStr,
      x ∈ ps.dedup.filter (fun y => decide (y ∈ rs.dedup)) ↔ x ∈ ps ∧ x ∈ rs := by
    intro x
    simp [List.mem_filter, List.mem_dedup]
  constructor
  · rintro ⟨x, hxp, hxr⟩
    have hov : (ps.dedup.filter fun y => decide (y ∈ rs.dedup)).isEmpty = false :=
      isEmpty_false_of_mem ((hint x).mpr ⟨hxp, hxr⟩)
    simp only [config, hroot, if_true, hov, Bool.false_eq_true, if_false]
    refine ⟨trivial, trivial, _, rfl, ?_, hint⟩
    intro hnil
    rw [hnil] at hov
    cases hov
  · intro hnex
    have hov : (ps.dedup.filter fun y => decide (y ∈ rs.dedup)).isEmpty = true := by
      cases hfe : ps.dedup.filter fun y => decide (y ∈ rs.dedup) with
      | nil => rfl
      | cons a t =>
        exact absurd ⟨a, (hint a).mp (hfe ▸ List.mem_cons_self a t)⟩ hnex
    simp only [config, hroot, if_true, hov, if_true]
    by_cases hpo : ctx.print_only
    · rw [hpo, runShellCommand_print_only]
      exact ⟨rfl, by simp⟩
    · rw [Bool.not_eq_true] at hpo
      rw [hpo, runShellCommand_run_ok _ _ _ (hrun _)]
      exact ⟨rfl, by simp⟩

/-- Witness for C1 at concrete inputs: the selection sharing openmp dies with
the not-disjoint fatal error and spawns nothing; the disjoint selection
passes validation. -/
theorem config_disjoint_validation_witness :
    fsA.pathExists (pathDiv ctxA.source (pys "llvm")) = true ∧
    (config ctxA false false [pys "openmp"] [pys "openmp", pys "libcxx"] [pys "X86"]
        false false (pys "lld") env0 fsA).spawned = [] ∧
    (config ctxA false false [pys "openmp"] [pys "openmp", pys "libcxx"] [pys "X86"]
        false false (pys "lld") env0 fsA).fatal ≠ none ∧
    (config ctxA false false [pys "clang"] [pys "openmp", pys "libcxx"] [pys "X86"]
        false false (pys "lld") env0 fsA).fatal = none := by
  have h1 := config_disjoint_validation ctxA false false false false [pys "openmp"]
    [pys "openmp", pys "libcxx"] [pys "X86"] (pys "lld") env0 fsA
    (by decide) (fun c => rfl)
  have h2 := config_disjoint_validation ctxA false false false false [pys "clang"]
    [pys "openmp", pys "libcxx"] [pys "X86"] (pys "lld") env0 fsA
    (by decide) (fun c => rfl)
  obtain ⟨hsp, -, ov, hfat, -, -⟩ := h1.1 ⟨pys "openmp", by decide, by decide⟩
  refine ⟨by decide, hsp, by rw [hfat]; simp, (h2.2 (by decide)).1⟩

/-! ## C2: dry-run behaviour of the four stages -/

lemma config_dry_run (ctx : CtxObj) (dc uec : Bool) (ps rs ts : List PyStr)
    (ddm dp : Bool) (lk : PyStr) (env : Env) (fs : FS)
    (hpo : ctx.print_only = true) :
    (config ctx dc uec ps rs ts ddm dp lk env fs).fs = fs ∧
    (config ctx dc uec ps rs ts ddm dp lk env fs).spawned = [] ∧
    (fs.pathExists (pathDiv ctx.source (pys "llvm")) = true →
      (ps.dedup.filter fun y => decide (y ∈ rs.dedup)).isEmpty = true →
      (config ctx dc uec ps rs ts ddm dp lk env fs).fatal = none) := by
  simp only [config, hpo, Bool.not_true, Bool.false_eq_true, if_false]
  split
  · split
    · rw [runShellCommand_print_only]
      exact ⟨rfl, rfl, fun _ _ => rfl⟩
    · rename_i hov
      exact ⟨rfl, rfl, fun _ hovt => absurd hovt hov⟩
  · rename_i hroot
    exact ⟨rfl, rfl, fun hroott _ => absurd hroott hroot⟩

lemma build_dry_run (ctx : CtxObj) (jobs : Nat) (env : Env) (fs : FS)
    (hpo : ctx.print_only = true) :
    (build ctx jobs env fs).fs = fs ∧ (build ctx jobs env fs).spawned = [] ∧
    (isDirectoryEmpty fs ctx.build = false → (build ctx jobs env fs).fatal = none) := by
  unfold build
  split
  · rename_i h
    refine ⟨rfl, rfl, fun hne => ?_⟩
    rw [stage_guard_false hne] at h
    cases h
  · rw [hpo, runShellCommand_print_only]
    exact ⟨rfl, rfl, fun _ => rfl⟩

lemma install_dry_run (ctx : CtxObj) (env : Env) (fs : FS)
    (hpo : ctx.print_only = true) :
    (install ctx env fs).fs = fs ∧ (install ctx env fs).spawned = [] ∧
    (isDirectoryEmpty fs ctx.build = false → fs.pathExists ctx.install = true →
      (install ctx env fs).fatal = none) := by
  simp only [install, hpo, Bool.not_true, Bool.false_eq_true, if_false]
  split
  · rename_i h
    refine ⟨rfl, rfl, fun hne _ => ?_⟩
    rw [stage_guard_false hne] at h
    cases h
  · split
    · rw [runShellCommand_print_only]
      exact ⟨rfl, rfl, fun _ _ => rfl⟩
    · rename_i hni
      exact ⟨rfl, rfl, fun _ hie => absurd hie hni⟩

lemma test_dry_run (ctx : CtxObj) (t : PyStr) (env : Env) (fs : FS)
    (hpo : ctx.print_only = true) :
    (test ctx t env fs).fs = fs ∧ (test ctx t env fs).spawned = [] ∧
    (isDirectoryEmpty fs ctx.build = false → (test ctx t env fs).fatal = none) := by
  unfold test
  split
  · rename_i h
    refine ⟨rfl, rfl, fun hne => ?_⟩
    rw [stage_guard_false hne] at h
    cases h
  · rw [hpo, runShellCommand_print_only]
    exact ⟨rfl, rfl, fun _ => rfl⟩

/-- Counterexample for C2: in dry-run mode the build stage still dies with
the fatal Build-path-empty error when the build directory is missing, so a
dry-run stage does not return success regardless of prerequisite
directories. -/
theorem dry_run_counterexample :
    ctxB.print_only = true ∧
    isDirectoryEmpty fsEmpty ctxB.build = true ∧
    (build ctxB 4 env0 fsEmpty).fatal = some (.buildPathEmpty ctxB.build) := by
  decide

/-- C2 as amended: with dry-run enabled no stage mutates the filesystem and
no stage spawns a process; a stage returns success provided its own
pre-flight checks pass (config needs the llvm root and disjoint selections;
build, install and test need a non-empty build directory, and install needs
the install path to exist, since dry-run skips its creation). -/
theorem dry_run_no_effects (ctx : CtxObj) (dc uec ddm dp : Bool)
    (ps rs ts : List PyStr) (lk : PyStr) (jobs : Nat) (t : PyStr)
    (env : Env) (fs : FS) (hpo : ctx.print_only = true) :
    ((config ctx dc uec ps rs ts ddm dp lk env fs).fs = fs ∧
     (config ctx dc uec ps rs ts ddm dp lk env fs).spawned = [] ∧
     (fs.pathExists (pathDiv ctx.source (pys "llvm")) = true →
       (ps.dedup.filter fun y => decide (y ∈ rs.dedup)).isEmpty = true →
       (config ctx dc uec ps rs ts ddm dp lk env fs).fatal = none)) ∧
    ((build ctx jobs env fs).fs = fs ∧ (build ctx jobs env fs).spawned = [] ∧
     (isDirectoryEmpty fs ctx.build = false → (build ctx jobs env fs).fatal = none)) ∧
    ((install ctx env fs).fs = fs ∧ (install ctx env fs).spawned = [] ∧
     (isDirectoryEmpty fs ctx.build = false → fs.pathExists ctx.install = true →
       (install ctx env fs).fatal = none)) ∧
    ((test ctx t env fs).fs = fs ∧ (test ctx t env fs).spawned = [] ∧
     (isDirectoryEmpty fs ctx.build = false → (test ctx t env fs).fatal = none)) :=
  ⟨config_dry_run ctx dc uec ps rs ts ddm dp lk env fs hpo,
   build_dry_run ctx jobs env fs hpo,
   install_dry_run ctx env fs hpo,
   test_dry_run ctx t env fs hpo⟩

/-- Witness for C2 as amended at a concrete dry-run session with every
pre-flight check passing. -/
theorem dry_run_no_effects_witness :
    ctxB.print_only = true ∧
    (config ctxB false false [pys "clang"] [pys "openmp"] [pys "X86"]
        false false (pys "lld") env0 fsInst).fs = fsInst ∧
    (build ctxB 4 env0 fsInst).spawned = [] ∧
    (build ctxB 4 env0 fsInst).fatal = none ∧
    (install ctxB env0 fsInst).fatal = none ∧
    (test ctxB (pys "check-all") env0 fsInst).fatal = none := by
  have h := dry_run_no_effects ctxB false false false false [pys "clang"] [pys "openmp"]
    [pys "X86"] (pys "lld") 4 (pys "check-all") env0 fsInst (by decide)
  exact ⟨by decide, h.1.1, h.2.1.2.1, h.2.1.2.2 (by decide),
    h.2.2.1.2.2 (by decide) (by decide), h.2.2.2.2.2 (by decide)⟩

/-! ## C7: non-empty install path only warns and proceeds -/

/-- Counterexample for C7: with a non-empty install path (and no overwrite
flag in the interface at all) the install stage does not terminate: it
reports no fatal error and spawns the external install process. -/
theorem install_overwrite_counterexample :
    fsInst.pathExists ctxA.install = true ∧
    isDirectoryEmpty fsInst ctxA.install = false ∧
    ctxA.print_only = false ∧
    (install ctxA env0 fsInst).fatal = none ∧
    (install ctxA env0 fsInst).spawned ≠ [] := by
  decide

/-- C7 as amended: when the build directory is non-empty and the resolved
install path exists and is non-empty, the install stage emits the non-fatal
install-path-not-empty warning and proceeds to spawn the cmake install
process (the interface has no overwrite flag and the stage never terminates
for this reason). -/
theorem install_nonempty_warns_and_proceeds (ctx : CtxObj) (env : Env) (fs : FS)
    (hpo : ctx.print_only = false)
    (hb : isDirectoryEmpty fs ctx.build = false)
    (hie : fs.pathExists ctx.install = true)
    (hine : isDirectoryEmpty fs ctx.install = false)
    (hrun : ∀ c, env.run c = 0) :
    (install ctx env fs).warnings = [Warn.installPathNotEmpty ctx.install] ∧
    (install ctx env fs).spawned
      = [[pys "cmake", pys "--install", ctx.build, pys "--prefix", ctx.install]] ∧
    (install ctx env fs).fatal = none := by
  simp only [install, stage_guard_false hb, Bool.false_eq_true, if_false, hpo,
    Bool.not_false, if_true, FS.mkdir_exists hie, hie, hine]
  rw [runShellCommand_run_ok _ _ _ (hrun _)]
  exact ⟨rfl, rfl, rfl⟩

/-- Witness for C7 as amended at a concrete non-empty install path. -/
theorem install_nonempty_warns_and_proceeds_witness :
    isDirectoryEmpty fsInst ctxA.build = false ∧
    isDirectoryEmpty fsInst ctxA.install = false ∧
    (install ctxA env0 fsInst).warnings = [Warn.installPathNotEmpty ctxA.install] ∧
    (install ctxA env0 fsInst).fatal = none := by
  have h := install_nonempty_warns_and_proceeds ctxA env0 fsInst (by decide) (by decide)
    (by decide) (by decide) (fun c => rfl)
  exact ⟨by decide, by decide, h.1, h.2.2⟩

/-! ## C10: the llvm-subdirectory check belongs to config alone -/

/-- C10: the cli callback verifies only that the top-level source path
exists, so an invocation that skips config succeeds at the group level even
when source/llvm is missing; config itself then dies with the
llvm-root-missing fatal error, while the build, install and test stages
never look at the llvm root and are decided purely by their build-directory
prerequisite (fatal when that directory is missing or empty, proceeding to
their commands otherwise). -/
theorem llvm_subdir_check_only_config (cwd src : PyStr) (bOpt iOpt : Option PyStr)
    (bt : PyStr) (po : Bool) (gen : PyStr) (dc uec ddm dp : Bool)
    (ps rs ts : List PyStr) (lk : PyStr) (jobs : Nat) (t : PyStr) (env : Env) (fs : FS)
    (hsrc : fs.pathExists src = true)
    (hllvm : fs.pathExists (pathDiv src (pys "llvm")) = false)
    (hrun : ∀ c, env.run c = 0) :
    ∃ ctx, cli cwd src bOpt iOpt bt po gen env fs = .ok ctx ∧ ctx.source = src ∧
      (config ctx dc uec ps rs ts ddm dp lk env fs).fatal
        = some (.llvmRootMissing (pathDiv src (pys "llvm"))) ∧
      (config ctx dc uec ps rs ts ddm dp lk env fs).printed = [] ∧
      (isDirectoryEmpty fs ctx.build = true →
        (build ctx jobs env fs).fatal = some (.buildPathEmpty ctx.build)) ∧
      (isDirectoryEmpty fs ctx.build = false →
        (build ctx jobs env fs).fatal = none ∧ (build ctx jobs env fs).printed ≠ []) ∧
      (isDirectoryEmpty fs ctx.build = true →
        (install ctx env fs).fatal = some (.buildPathEmpty ctx.build)) ∧
      (isDirectoryEmpty fs ctx.build = false → fs.pathExists ctx.install = true →
        (install ctx env fs).fatal = none ∧ (install ctx env fs).printed ≠ []) ∧
      (isDirectoryEmpty fs ctx.build = true →
        (test ctx t env fs).fatal = some (.buildPathEmpty ctx.build)) ∧
      (isDirectoryEmpty fs ctx.build = false → (test ctx t env fs).fatal = none) := by
  unfold cli
  rw [hsrc]
  refine ⟨_, rfl, rfl, ?_, ?_, ?_, ?_, ?_, ?_, ?_, ?_⟩
  · simp only [config, hllvm, Bool.false_eq_true, if_false]
  · simp only [config, hllvm, Bool.false_eq_true, if_false]
  · intro h
    simp only [build, h, Bool.or_true, if_true]
  · intro h
    unfold build
    rw [stage_guard_false h]
    simp only [Bool.false_eq_true, if_false]
    by_cases hpo : po
    · rw [hpo, runShellCommand_print_only]
      exact ⟨rfl, by simp⟩
    · rw [Bool.not_eq_true] at hpo
      rw [hpo, runShellCommand_run_ok _ _ _ (hrun _)]
      exact ⟨rfl, by simp⟩
  · intro h
    simp only [install, h, Bool.or_true, if_true]
  · intro h hie
    unfold install
    rw [stage_guard_false h]
    simp only [Bool.false_eq_true, if_false]
    by_cases hpo : po
    · rw [hpo]
      simp only [Bool.not_true, Bool.false_eq_true, if_false, hie, if_true]
      rw [runShellCommand_print_only]
      exact ⟨rfl, by simp⟩
    · rw [Bool.not_eq_true] at hpo
      rw [hpo]
      simp only [Bool.not_false, if_true, FS.mkdir_exists hie, hie]
      rw [runShellCommand_run_ok _ _ _ (hrun _)]
      exact ⟨rfl, by simp⟩
  · intro h
    simp only [test, h, Bool.or_true, if_true]
  · intro h
    unfold test
    rw [stage_guard_false h]
    simp only [Bool.false_eq_true, if_false]
    by_cases hpo : po
    · rw [hpo, runShellCommand_print_only]
    · rw [Bool.not_eq_true] at hpo
      rw [hpo, runShellCommand_run_ok _ _ _ (hrun _)]

/-- The ctx.obj the cli callback produces for the concrete C10 witness
session (source /s, build override /b, build type Release, branch main). -/
def ctxC : CtxObj :=
  { source := pys "/s", build := pys "/b/release",
    install := pys "/w/installs/main/release",
    build_type := pys "Release", print_only := false, generator := pys "Ninja" }

/-- Witness for C10: with source /s existing but /s/llvm missing and a
non-empty build directory, the cli callback succeeds, config dies with the
llvm-root fatal error, and the build, install and test stages all pass
their build-directory prerequisite check. -/
theorem llvm_subdir_check_only_config_witness :
    fsNoLlvm.pathExists (pys "/s") = true ∧
    fsNoLlvm.pathExists (pathDiv (pys "/s") (pys "llvm")) = false ∧
    ∃ ctx, cli (pys "/w") (pys "/s") (some (pys "/b")) none (pys "Release") false
        (pys "Ninja") env0 fsNoLlvm = .ok ctx ∧
      (config ctx false false [pys "clang"] [pys "openmp"] [pys "X86"] false false
        (pys "lld") env0 fsNoLlvm).fatal
        = some (.llvmRootMissing (pathDiv (pys "/s") (pys "llvm"))) ∧
      (build ctx 4 env0 fsNoLlvm).fatal = none ∧
      (install ctx env0 fsNoLlvm).fatal = none ∧
      (test ctx (pys "check-all") env0 fsNoLlvm).fatal = none := by
  refine ⟨by decide, by decide, ?_⟩
  obtain ⟨ctx, hok, -, hcfg, -, -, hbn, -, hin, -, htn⟩ :=
    llvm_subdir_check_only_config (pys "/w") (pys "/s") (some (pys "/b")) none
      (pys "Release") false (pys "Ninja") false false false false [pys "clang"]
      [pys "openmp"] [pys "X86"] (pys "lld") 4 (pys "check-all") env0 fsNoLlvm
      (by decide) (by decide) (fun c => rfl)
  have hctx : ctx = ctxC := by
    have h2 : cli (pys "/w") (pys "/s") (some (pys "/b")) none (pys "Release") false
        (pys "Ninja") env0 fsNoLlvm = .ok ctxC := by rfl
    rw [h2] at hok
    exact (Except.ok.inj hok).symm
  subst hctx
  exact ⟨ctxC, hok, hcfg, (hbn (by decide)).1,
    (hin (by decide) (by decide)).1, htn (by decide)⟩

/-! ## C4: NVPTX-only flags in the synthesized configure command -/

/-- The default-architecture flag appended only for the NVPTX target. -/
def nvptxArch : PyStr := pys "-DCLANG_OPENMP_NVPTX_DEFAULT_ARCH=sm_86"

/-- The compute-capability flag appended only for the NVPTX target. -/
def nvptxCap : PyStr := pys "-DLIBOMPTARGET_NVPTX_COMPUTE_CAPABILITIES=86"

/-- The fixed prefixes of the configure-command entries that carry a
variable payload. -/
def cmdVarPre : List PyStr :=
  [pys "-S", pys "-B", pys "-G", pys "-DCMAKE_BUILD_TYPE=",
   pys "-DCMAKE_INSTALL_PREFIX=", pys "-DLLVM_ENABLE_PROJECTS=",
   pys "-DLLVM_ENABLE_RUNTIMES=", pys "-DLLVM_TARGETS_TO_BUILD=",
   pys "-DLIBOMPTARGET_ENABLE_DEBUG=", pys "-DLIBOMPTARGET_ENABLE_PROFILER=",
   pys "-DOPENMP_STANDALONE_BUILD=", pys "-DCMAKE_C_COMPILER=",
   pys "-DCMAKE_CXX_COMPILER=", pys "-DLLVM_USE_LINKER="]

/-- The configure-command entries that are complete fixed strings. -/
def cmdFixedEntries : List PyStr :=
  [pys "cmake", pys "-DCLANG_VENDOR=OmpCluster", pys "-DLLVM_ENABLE_ASSERTIONS=On",
   pys "-DCMAKE_EXPORT_COMPILE_COMMANDS=On", pys "-DLLVM_INCLUDE_BENCHMARKS=Off",
   pys "-DLLVM_CCACHE_BUILD=ON", pys "-DBUILD_SHARED_LIBS=1",
   pys "-DLLVM_USE_SPLIT_DWARF=1"]

lemma mem_of_ite_nil {α : Type} {b : Prop} [Decidable b] {l : List α} {x : α}
    (h : x ∈ if b then l else []) : x ∈ l := by
  by_cases hb : b
  · rwa [if_pos hb] at h
  · rw [if_neg hb] at h
    cases h

/-- A string that no variable-entry prefix heads and that is none of the
fixed entries sits in the synthesized configure command exactly when the
NVPTX substring test on the joined target string succeeds. -/
lemma mem_cmake_config_nvptx (flag : PyStr) {ctx : CtxObj}
    {projStr runtStr targStr : PyStr} {uec : Bool} {cp cxp lk : PyStr}
    {dcc : Bool} {dm pf st : Nat}
    (hpre : ∀ p ∈ cmdVarPre, isPre p flag = false)
    (hfix : flag ∉ cmdFixedEntries)
    (hnv : flag ∈ [pys "-DCLANG_OPENMP_NVPTX_DEFAULT_ARCH=sm_86",
                   pys "-DLIBOMPTARGET_NVPTX_COMPUTE_CAPABILITIES=86"]) :
    (flag ∈ cmake_config_command ctx projStr runtStr targStr uec cp cxp lk dcc dm pf st)
      ↔ hasSub (pys "NVPTX") targStr = true := by
  by_cases h : hasSub (pys "NVPTX") targStr = true
  · unfold cmake_config_command
    refine iff_of_true (List.mem_append_right _ ?_) h
    rw [if_pos h]
    exact hnv
  · refine iff_of_false ?_ h
    intro hmem
    unfold cmake_config_command at hmem
    rw [if_neg h] at hmem
    simp only [List.append_nil] at hmem
    rcases List.mem_append.1 hmem with hmem | hm3
    · rcases List.mem_append.1 hmem with hmem | hm2
      · rcases List.mem_append.1 hmem with hbase | hm1
        · simp only [List.mem_cons, List.not_mem_nil, or_false] at hbase
          rcases hbase with h1|h1|h1|h1|h1|h1|h1|h1|h1|h1|h1|h1|h1|h1|h1|h1 <;>
            first
              | (subst h1; exact hfix (by decide))
              | exact append_ne_of_not_isPre _ (hpre _ (by decide)) h1.symm
        · have h1 := mem_of_ite_nil hm1
          simp only [List.mem_cons, List.not_mem_nil, or_false] at h1
          rcases h1 with h1|h1|h1 <;>
            exact append_ne_of_not_isPre _ (hpre _ (by decide)) h1.symm
      · have h1 := mem_of_ite_nil hm2
        simp only [List.mem_cons, List.not_mem_nil, or_false] at h1
        subst h1
        exact hfix (by decide)
    · have h1 := mem_of_ite_nil hm3
      simp only [List.mem_cons, List.not_mem_nil, or_false] at h1
      rcases h1 with h1|h1 <;> (subst h1; exact hfix (by decide))

/-- Among the sixteen catalog targets only NVPTX itself contains NVPTX as a
substring. -/
lemma nvptx_only_target :
    ∀ t ∈ llvm_targets, (hasSub (pys "NVPTX") t = true ↔ t = pys "NVPTX") := by
  decide

/-- For a catalog-validated target selection, the substring test on the
joined string coincides with set membership of NVPTX. -/
lemma hasSub_nvptx_join {ts : List PyStr} (hcat : ∀ t ∈ ts, t ∈ llvm_targets) :
    hasSub (pys "NVPTX") (semiJoin ts.dedup) = true ↔ pys "NVPTX" ∈ ts := by
  rw [hasSub_semiJoin (by decide) (by decide), List.any_eq_true]
  constructor
  · rintro ⟨t, ht, hsub⟩
    have heq := (nvptx_only_target t (hcat t (List.mem_dedup.1 ht))).1 hsub
    exact List.mem_dedup.1 (heq ▸ ht)
  · intro h
    exact ⟨pys "NVPTX", List.mem_dedup.2 h, by decide⟩

/-- C4: for every catalog-validated target selection, the synthesized
configure command contains the NVPTX default-architecture and
compute-capability flags exactly when NVPTX is one of the enabled targets. -/
theorem nvptx_flags_iff_target (ctx : CtxObj) (projStr runtStr : PyStr)
    (ts : List PyStr) (uec : Bool) (cp cxp lk : PyStr) (dcc : Bool) (dm pf st : Nat)
    (hcat : ∀ t ∈ ts, t ∈ llvm_targets) :
    (nvptxArch ∈ cmake_config_command ctx projStr runtStr (semiJoin ts.dedup)
        uec cp cxp lk dcc dm pf st ↔ pys "NVPTX" ∈ ts) ∧
    (nvptxCap ∈ cmake_config_command ctx projStr runtStr (semiJoin ts.dedup)
        uec cp cxp lk dcc dm pf st ↔ pys "NVPTX" ∈ ts) := by
  constructor
  · rw [mem_cmake_config_nvptx nvptxArch (by decide) (by decide) (by decide)]
    exact hasSub_nvptx_join hcat
  · rw [mem_cmake_config_nvptx nvptxCap (by decide) (by decide) (by decide)]
    exact hasSub_nvptx_join hcat

/-- Witness for C4: the selection {X86, NVPTX} puts the architecture flag in
the command and the selection {X86} keeps the capability flag out. -/
theorem nvptx_flags_iff_target_witness :
    (∀ t ∈ [pys "X86", pys "NVPTX"], t ∈ llvm_targets) ∧
    nvptxArch ∈ cmake_config_command ctxA (pys "clang") (pys "openmp")
      (semiJoin [pys "X86", pys "NVPTX"].dedup) true [] [] (pys "lld") true 1 1 0 ∧
    nvptxCap ∉ cmake_config_command ctxA (pys "clang") (pys "openmp")
      (semiJoin ([pys "X86"] : List PyStr).dedup) true [] [] (pys "lld") true 1 1 0 := by
  have h1 := nvptx_flags_iff_target ctxA (pys "clang") (pys "openmp")
    [pys "X86", pys "NVPTX"] true [] [] (pys "lld") true 1 1 0 (by decide)
  have h2 := nvptx_flags_iff_target ctxA (pys "clang") (pys "openmp")
    [pys "X86"] true [] [] (pys "lld") true 1 1 0 (by decide)
  refine ⟨by decide, h1.1.mpr (by decide), fun hm => absurd (h2.2.mp hm) (by decide)⟩

end LlvmBuild
